import Mathlib

/-!
Shallow embedding of the type-alias declarations in falcon/_typing.py.

The file under verification declares no executable behavior: it is a
catalogue of callable contracts (responders, error handlers, sinks,
middleware process methods, media serializers, the routing lookup) in a
synchronous (WSGI) and an asynchronous (ASGI) form, plus a few auxiliary
aliases such as the UNSET sentinel.  We embed Python type expressions as
an inductive, call signatures (positional-only parameters, ordinary
parameters, keyword-only parameters, a **kwargs annotation, the return
type) as a structure, and give a value-level typing judgment so that
claims about unions and optionality can be settled on concrete values.

Conventions of the embedding:
- an async def protocol method with declared return T is recorded with
  return type awaitable T, matching the Python typing rule that calling
  an async function yields an awaitable of its declared return;
- parameters of a plain Callable alias are positional-only and unnamed
  (name recorded as the empty string), matching the typing semantics of
  Callable;
- a TypeVar bounded by a class (such as the request and response type
  variables) admits class instances only, so the None value does not
  inhabit a bare bounded TypeVar.
-/

namespace FalconTyping

/-- Embedded Python type expressions, covering every construct used in
falcon/_typing.py that the claims touch. -/
inductive PyType where
  | any : PyType
  | noneT : PyType
  | str : PyType
  | bytes : PyType
  | boolT : PyType
  | intT : PyType
  | obj : PyType
  | named : String → PyType
  | tvar : String → PyType
  | pattern : PyType → PyType
  | optional : PyType → PyType
  | union : PyType → PyType → PyType
  | awaitable : PyType → PyType
  | dict : PyType → PyType → PyType
  | pair : PyType → PyType → PyType
  | tuple4 : PyType → PyType → PyType → PyType → PyType
  | fn0 : PyType → PyType
  | protoRef : String → PyType
  | litUnset : PyType
  | litBool : Bool → PyType
  deriving DecidableEq

/-- A single declared parameter: its name, annotation, and whether the
declaration gives it a default value. -/
structure Param where
  pname : String
  ty : PyType
  hasDefault : Bool
  deriving DecidableEq

/-- The call signature of a callable contract: positional-only
parameters (before the / marker), positional-or-keyword parameters,
keyword-only parameters (after *), the annotation of **kwargs when
present, and the type of the value a call produces. -/
structure CallSignature where
  posOnly : List Param
  posOrKw : List Param
  kwOnly : List Param
  varKw : Option PyType
  ret : PyType
  deriving DecidableEq

/-- Anonymous positional parameter without default, as in a Callable
alias. -/
def anon (t : PyType) : Param := ⟨"", t, false⟩

/-- Named parameter without default. -/
def p (n : String) (t : PyType) : Param := ⟨n, t, false⟩

/-- The signature of a nullary callable returning t, used for the
members of ResponseCallbacks. -/
def nullarySig (t : PyType) : CallSignature := ⟨[], [], [], Option.none, t⟩

/-- Embedded Python runtime values, enough to inhabit the types the
claims quantify over.  Dictionaries are spelled as flat cons-lists of
key/value entries; a function value carries its call signature. -/
inductive PyVal where
  | vNone : PyVal
  | vStr : String → PyVal
  | vBytes : String → PyVal
  | vBool : Bool → PyVal
  | vInt : Int → PyVal
  | vUnset : PyVal
  | vObj : String → PyVal
  | vPair : PyVal → PyVal → PyVal
  | vTuple4 : PyVal → PyVal → PyVal → PyVal → PyVal
  | vDictNil : PyVal
  | vDictCons : PyVal → PyVal → PyVal → PyVal
  | vFun : CallSignature → PyVal
  deriving DecidableEq

/-- An environment resolving a protocol name to its declared call
signature. -/
def ProtoEnv : Type := String → Option CallSignature

/-- Entrywise check of a dictionary value, given checkers for its keys
and its values. -/
def dictEntriesOk (kf vf : PyVal → Bool) : PyVal → Bool
  | .vDictNil => true
  | .vDictCons k val rest => kf k && vf val && dictEntriesOk kf vf rest
  | _ => false

/-- Value-level typing judgment over the embedded types.  A value of a
protocol type is a function value whose signature is exactly the
signature the environment records for that protocol name; object and
Any accept every value; a union accepts a value of either arm; an
optional type accepts None and the values of its argument; a bounded
TypeVar accepts class instances. -/
def hasType (env : ProtoEnv) : PyVal → PyType → Bool
  | _, .any => true
  | _, .obj => true
  | v, .tvar _ => match v with
    | .vObj _ => true
    | _ => false
  | v, .noneT => match v with
    | .vNone => true
    | _ => false
  | v, .str => match v with
    | .vStr _ => true
    | _ => false
  | v, .bytes => match v with
    | .vBytes _ => true
    | _ => false
  | v, .boolT => match v with
    | .vBool _ => true
    | _ => false
  | v, .intT => match v with
    | .vInt _ => true
    | _ => false
  | v, .named n => match v with
    | .vObj c => c == n
    | _ => false
  | v, .pattern _ => match v with
    | .vObj c => c == "Pattern"
    | _ => false
  | v, .optional t => decide (v = .vNone) || hasType env v t
  | v, .union a b => hasType env v a || hasType env v b
  | _, .awaitable _ => false
  | v, .dict kt vt =>
      dictEntriesOk (fun k => hasType env k kt) (fun w => hasType env w vt) v
  | v, .pair ta tb => match v with
    | .vPair a b => hasType env a ta && hasType env b tb
    | _ => false
  | v, .tuple4 ta tb tc td => match v with
    | .vTuple4 a b c d =>
        hasType env a ta && hasType env b tb && hasType env c tc &&
          hasType env d td
    | _ => false
  | v, .fn0 r => match v with
    | .vFun s => decide (s = nullarySig r)
    | _ => false
  | v, .protoRef n => match v with
    | .vFun s => match env n with
      | Option.some sig => decide (s = sig)
      | Option.none => false
    | _ => false
  | v, .litUnset => match v with
    | .vUnset => true
    | _ => false
  | v, .litBool b => match v with
    | .vBool c => c == b
    | _ => false

/-- The sentinel enum of _typing.py: class _Unset(Enum) with the single
member UNSET, produced by auto(). -/
inductive _Unset where
  | UNSET : _Unset
  deriving DecidableEq

/-- The module-level constant _UNSET = _Unset.UNSET. -/
def _UNSET : _Unset := _Unset.UNSET

/-- UnsetOr = Union of Literal of _Unset.UNSET and the type parameter. -/
def UnsetOr (t : PyType) : PyType := .union .litUnset t

/-- Resource = object. -/
def Resource : PyType := .obj

/-- ErrorHandler = Callable taking a request, a response, the raised
BaseException-bounded error, and a Dict from str to Any, returning
None. -/
def ErrorHandler : CallSignature :=
  ⟨[anon (.tvar ("_REQ")), anon (.tvar ("_RESP")), anon (.tvar ("_BE")),
    anon (.dict .str .any)], [], [], Option.none, .noneT⟩

/-- AsgiErrorHandler protocol: async call with positional-only req,
optional resp, error, params, plus a keyword-only defaulted ws of type
Optional of WebSocket, returning None (hence an awaitable of None when
invoked). -/
def AsgiErrorHandler : CallSignature :=
  ⟨[p ("req") (.tvar ("_A_REQ")), p ("resp") (.optional (.tvar ("_A_RESP"))),
    p ("error") (.tvar ("_BE")), p ("params") (.dict .str .any)],
   [], [⟨"ws", .optional (.named ("WebSocket")), true⟩], Option.none,
   .awaitable .noneT⟩

/-- ErrorSerializer = Callable of request, response, HTTPError to
None. -/
def ErrorSerializer : CallSignature :=
  ⟨[anon (.tvar ("_REQ")), anon (.tvar ("_RESP")), anon (.named ("HTTPError"))],
   [], [], Option.none, .noneT⟩

/-- SinkPrefix = Union of str and Pattern of str. -/
def SinkPrefix : PyType := .union .str (.pattern .str)

/-- SinkCallable protocol: positional-only req and resp, **kwargs
annotated str, returning None. -/
def SinkCallable : CallSignature :=
  ⟨[p ("req") (.tvar ("_REQ")), p ("resp") (.tvar ("_RESP"))], [], [],
   Option.some .str, .noneT⟩

/-- AsgiSinkCallable protocol: async form of SinkCallable over the ASGI
request and response types. -/
def AsgiSinkCallable : CallSignature :=
  ⟨[p ("req") (.tvar ("_A_REQ")), p ("resp") (.tvar ("_A_RESP"))], [], [],
   Option.some .str, .awaitable .noneT⟩

/-- ResponderMethod protocol: positional-only resource, req, resp, then
**kwargs annotated Any, returning None. -/
def ResponderMethod : CallSignature :=
  ⟨[p ("resource") Resource, p ("req") (.tvar ("_REQ")), p ("resp") (.tvar ("_RESP"))],
   [], [], Option.some .any, .noneT⟩

/-- ResponderCallable protocol: positional-only req and resp, **kwargs
annotated Any, returning None. -/
def ResponderCallable : CallSignature :=
  ⟨[p ("req") (.tvar ("_REQ")), p ("resp") (.tvar ("_RESP"))], [], [],
   Option.some .any, .noneT⟩

/-- ProcessRequestMethod = Callable of request and response to None. -/
def ProcessRequestMethod : CallSignature :=
  ⟨[anon (.tvar ("_REQ")), anon (.tvar ("_RESP"))], [], [], Option.none, .noneT⟩

/-- ProcessResourceMethod = Callable of request, response, Resource and
a Dict from str to Any, to None. -/
def ProcessResourceMethod : CallSignature :=
  ⟨[anon (.tvar ("_REQ")), anon (.tvar ("_RESP")), anon Resource,
    anon (.dict .str .any)], [], [], Option.none, .noneT⟩

/-- ProcessResponseMethod = Callable of request, response, Resource and
bool, to None. -/
def ProcessResponseMethod : CallSignature :=
  ⟨[anon (.tvar ("_REQ")), anon (.tvar ("_RESP")), anon Resource, anon .boolT],
   [], [], Option.none, .noneT⟩

/-- AsgiResponderMethod protocol: async ResponderMethod over the ASGI
request and response types. -/
def AsgiResponderMethod : CallSignature :=
  ⟨[p ("resource") Resource, p ("req") (.tvar ("_A_REQ")),
    p ("resp") (.tvar ("_A_RESP"))],
   [], [], Option.some .any, .awaitable .noneT⟩

/-- AsgiResponderCallable protocol: async ResponderCallable over the
ASGI request and response types. -/
def AsgiResponderCallable : CallSignature :=
  ⟨[p ("req") (.tvar ("_A_REQ")), p ("resp") (.tvar ("_A_RESP"))], [], [],
   Option.some .any, .awaitable .noneT⟩

/-- AsgiResponderWsCallable protocol: async call with positional-only
req and a WebSocket, **kwargs annotated Any, returning None. -/
def AsgiResponderWsCallable : CallSignature :=
  ⟨[p ("req") (.tvar ("_A_REQ")), p ("ws") (.named ("WebSocket"))], [], [],
   Option.some .any, .awaitable .noneT⟩

/-- AsgiReceive = Callable of no arguments to an Awaitable AsgiEvent. -/
def AsgiReceive : CallSignature := nullarySig (.awaitable (.named ("AsgiEvent")))

/-- AsgiSend = Callable of an AsgiSendMsg to an Awaitable None. -/
def AsgiSend : CallSignature :=
  ⟨[anon (.named ("AsgiSendMsg"))], [], [], Option.none, .awaitable .noneT⟩

/-- AsgiProcessRequestMethod = Callable of ASGI request and response to
an Awaitable None. -/
def AsgiProcessRequestMethod : CallSignature :=
  ⟨[anon (.tvar ("_A_REQ")), anon (.tvar ("_A_RESP"))], [], [], Option.none,
   .awaitable .noneT⟩

/-- AsgiProcessResourceMethod = Callable of ASGI request, response,
Resource and a Dict from str to Any, to an Awaitable None. -/
def AsgiProcessResourceMethod : CallSignature :=
  ⟨[anon (.tvar ("_A_REQ")), anon (.tvar ("_A_RESP")), anon Resource,
    anon (.dict .str .any)], [], [], Option.none, .awaitable .noneT⟩

/-- AsgiProcessResponseMethod = Callable of ASGI request, response,
Resource and bool, to an Awaitable None. -/
def AsgiProcessResponseMethod : CallSignature :=
  ⟨[anon (.tvar ("_A_REQ")), anon (.tvar ("_A_RESP")), anon Resource,
    anon .boolT], [], [], Option.none, .awaitable .noneT⟩

/-- AsgiProcessRequestWsMethod = Callable of ASGI request and WebSocket
to an Awaitable None. -/
def AsgiProcessRequestWsMethod : CallSignature :=
  ⟨[anon (.tvar ("_A_REQ")), anon (.named ("WebSocket"))], [], [], Option.none,
   .awaitable .noneT⟩

/-- AsgiProcessResourceWsMethod = Callable of ASGI request, WebSocket,
Resource and a Dict from str to Any, to an Awaitable None. -/
def AsgiProcessResourceWsMethod : CallSignature :=
  ⟨[anon (.tvar ("_A_REQ")), anon (.named ("WebSocket")), anon Resource,
    anon (.dict .str .any)], [], [], Option.none, .awaitable .noneT⟩

/-- ResponseCallbacks = Union of a pair of a nullary Callable to None
tagged with Literal False, and a pair of a nullary Callable to an
Awaitable None tagged with Literal True. -/
def ResponseCallbacks : PyType :=
  .union (.pair (.fn0 .noneT) (.litBool false))
         (.pair (.fn0 (.awaitable .noneT)) (.litBool true))

/-- MethodDict = Union of a Dict from str to ResponderCallable and a
Dict from str to the Union of AsgiResponderCallable and
AsgiResponderWsCallable. -/
def MethodDict : PyType :=
  .union (.dict .str (.protoRef ("ResponderCallable")))
         (.dict .str (.union (.protoRef ("AsgiResponderCallable"))
                             (.protoRef ("AsgiResponderWsCallable"))))

/-- The result type of FindMethod: Optional of a 4-tuple of the matched
resource (object), MethodDict, a Dict from str to Any of captured
parameters, and an Optional remainder path str. -/
def FindResult : PyType :=
  .optional (.tuple4 .obj MethodDict (.dict .str .any) (.optional .str))

/-- FindMethod protocol: uri of type str and req of type Optional of
the request TypeVar (declared without a positional-only marker),
returning FindResult. -/
def FindMethod : CallSignature :=
  ⟨[], [p ("uri") .str, p ("req") (.optional (.tvar ("_REQ")))], [], Option.none,
   FindResult⟩

/-- SerializeSync protocol: media of type Any and a defaulted
content_type of type Optional of str (declared without a
positional-only marker), returning bytes. -/
def SerializeSync : CallSignature :=
  ⟨[], [p ("media") .any, ⟨"content_type", .optional .str, true⟩], [],
   Option.none, .bytes⟩

/-- DeserializeSync = Callable of bytes to Any. -/
def DeserializeSync : CallSignature :=
  ⟨[anon .bytes], [], [], Option.none, .any⟩

/-- Responder = Union of ResponderMethod and AsgiResponderMethod. -/
def Responder : PyType :=
  .union (.protoRef ("ResponderMethod")) (.protoRef ("AsgiResponderMethod"))

/-- The environment mapping each protocol name declared in the file to
its embedded call signature. -/
def falconEnv : ProtoEnv := fun n =>
  if n = "ResponderMethod" then Option.some ResponderMethod
  else if n = "ResponderCallable" then Option.some ResponderCallable
  else if n = "AsgiResponderMethod" then Option.some AsgiResponderMethod
  else if n = "AsgiResponderCallable" then Option.some AsgiResponderCallable
  else if n = "AsgiResponderWsCallable" then Option.some AsgiResponderWsCallable
  else if n = "AsgiErrorHandler" then Option.some AsgiErrorHandler
  else if n = "SinkCallable" then Option.some SinkCallable
  else if n = "AsgiSinkCallable" then Option.some AsgiSinkCallable
  else if n = "FindMethod" then Option.some FindMethod
  else if n = "SerializeSync" then Option.some SerializeSync
  else Option.none

/-- Every callable contract declared in the file, by name, as a
catalogue for claims that quantify over the declarations. -/
def declaredContracts : List (String × CallSignature) :=
  [("ErrorHandler", ErrorHandler), ("AsgiErrorHandler", AsgiErrorHandler),
   ("ErrorSerializer", ErrorSerializer), ("SinkCallable", SinkCallable),
   ("AsgiSinkCallable", AsgiSinkCallable),
   ("ResponderMethod", ResponderMethod),
   ("ResponderCallable", ResponderCallable),
   ("ProcessRequestMethod", ProcessRequestMethod),
   ("ProcessResourceMethod", ProcessResourceMethod),
   ("ProcessResponseMethod", ProcessResponseMethod),
   ("AsgiResponderMethod", AsgiResponderMethod),
   ("AsgiResponderCallable", AsgiResponderCallable),
   ("AsgiResponderWsCallable", AsgiResponderWsCallable),
   ("AsgiReceive", AsgiReceive), ("AsgiSend", AsgiSend),
   ("AsgiProcessRequestMethod", AsgiProcessRequestMethod),
   ("AsgiProcessResourceMethod", AsgiProcessResourceMethod),
   ("AsgiProcessResponseMethod", AsgiProcessResponseMethod),
   ("AsgiProcessRequestWsMethod", AsgiProcessRequestWsMethod),
   ("AsgiProcessResourceWsMethod", AsgiProcessResourceWsMethod),
   ("FindMethod", FindMethod), ("SerializeSync", SerializeSync),
   ("DeserializeSync", DeserializeSync)]

/-- Whether a type expression is syntactically an Optional. -/
def isOptionalTy : PyType → Bool
  | .optional _ => true
  | _ => false

/-- The type of the second declared parameter of a signature, taking
positional-only parameters before positional-or-keyword ones. -/
def secondParamTy (s : CallSignature) : Option PyType :=
  ((s.posOnly ++ s.posOrKw)[1]?).map Param.ty

/-- Renaming of the WSGI request and response TypeVars to their ASGI
counterparts, used to compare a synchronous contract with its
asynchronous family member. -/
def renameTv : PyType → PyType
  | .tvar ("_REQ") => .tvar ("_A_REQ")
  | .tvar ("_RESP") => .tvar ("_A_RESP")
  | .pattern t => .pattern (renameTv t)
  | .optional t => .optional (renameTv t)
  | .union a b => .union (renameTv a) (renameTv b)
  | .awaitable t => .awaitable (renameTv t)
  | .dict k v => .dict (renameTv k) (renameTv v)
  | .pair a b => .pair (renameTv a) (renameTv b)
  | .tuple4 a b c d =>
      .tuple4 (renameTv a) (renameTv b) (renameTv c) (renameTv d)
  | .fn0 r => .fn0 (renameTv r)
  | t => t

/-- Renaming applied to a parameter. -/
def renameParam (q : Param) : Param := ⟨q.pname, renameTv q.ty, q.hasDefault⟩

/-- The asynchronous counterpart of a synchronous contract: same
parameter groups with the request and response TypeVars renamed to
their ASGI forms, and the result wrapped in Awaitable. -/
def asgiCounterpart (s : CallSignature) : CallSignature :=
  ⟨s.posOnly.map renameParam, s.posOrKw.map renameParam,
   s.kwOnly.map renameParam, s.varKw.map renameTv,
   .awaitable (renameTv s.ret)⟩

/-- The shape of a signature: positional-only parameter names erased,
since an implementation may name positional-only parameters freely. -/
def shape (s : CallSignature) : CallSignature :=
  ⟨s.posOnly.map (fun q => ⟨"", q.ty, q.hasDefault⟩), s.posOrKw, s.kwOnly,
   s.varKw, s.ret⟩

/-- Whether a type expression syntactically admits the UNSET sentinel
value. -/
def unsetAdmissible : PyType → Bool
  | .any => true
  | .obj => true
  | .litUnset => true
  | .optional t => unsetAdmissible t
  | .union a b => unsetAdmissible a || unsetAdmissible b
  | _ => false

/-- Characterization of typing at the Literal UNSET type: only the
sentinel value inhabits it. -/
theorem hasType_litUnset (env : ProtoEnv) (v : PyVal) :
    hasType env v .litUnset = true ↔ v = .vUnset := by
  cases v <;> simp [hasType]

/-- Characterization of typing at a union type. -/
theorem hasType_union (env : ProtoEnv) (v : PyVal) (a b : PyType) :
    hasType env v (.union a b) = true ↔
      (hasType env v a = true ∨ hasType env v b = true) := by
  simp [hasType]

/-- Characterization of typing at an Optional type. -/
theorem hasType_optional (env : ProtoEnv) (v : PyVal) (t : PyType) :
    hasType env v (.optional t) = true ↔
      (v = .vNone ∨ hasType env v t = true) := by
  simp [hasType]

/-- Characterization of typing at a two-component tuple type. -/
theorem hasType_pair (env : ProtoEnv) (v : PyVal) (ta tb : PyType) :
    hasType env v (.pair ta tb) = true ↔
      ∃ a b, v = .vPair a b ∧ hasType env a ta = true ∧
        hasType env b tb = true := by
  cases v <;> simp [hasType]
  aesop

/-- Characterization of typing at a four-component tuple type. -/
theorem hasType_tuple4 (env : ProtoEnv) (v : PyVal) (ta tb tc td : PyType) :
    hasType env v (.tuple4 ta tb tc td) = true ↔
      ∃ a b c d, v = .vTuple4 a b c d ∧ hasType env a ta = true ∧
        hasType env b tb = true ∧ hasType env c tc = true ∧
        hasType env d td = true := by
  cases v <;> simp [hasType]
  aesop

/-- Characterization of typing at a nullary callable type. -/
theorem hasType_fn0 (env : ProtoEnv) (v : PyVal) (r : PyType) :
    hasType env v (.fn0 r) = true ↔ v = .vFun (nullarySig r) := by
  cases v <;> simp [hasType]

/-- Characterization of typing at a boolean literal type. -/
theorem hasType_litBool (env : ProtoEnv) (v : PyVal) (b : Bool) :
    hasType env v (.litBool b) = true ↔ v = .vBool b := by
  cases v <;> simp [hasType]

/-- A type whose values include the UNSET sentinel must syntactically
admit the sentinel. -/
theorem unsetAdmissible_of_hasType (env : ProtoEnv) (T : PyType)
    (h : hasType env .vUnset T = true) : unsetAdmissible T = true := by
  induction T <;> simp_all [hasType, unsetAdmissible, dictEntriesOk]
  tauto

/-- C1: both responder contracts, the WSGI ResponderMethod and the ASGI
AsgiResponderMethod, are invoked with exactly a resource handle, a
request, a response, and path-derived keyword arguments (a **kwargs
group annotated Any), and return nothing: None for the synchronous
form, an awaitable of None for the asynchronous form. -/
theorem responder_contract_four_groups (s : CallSignature)
    (h : s = ResponderMethod ∨ s = AsgiResponderMethod) :
    s.posOnly.map Param.pname = ["resource", "req", "resp"] ∧
    (s.posOnly.map Param.ty).head? = Option.some Resource ∧
    s.posOrKw = [] ∧ s.kwOnly = [] ∧ s.varKw = Option.some .any ∧
    (s.ret = .noneT ∨ s.ret = .awaitable .noneT) ∧
    ResponderMethod.ret = .noneT ∧
    AsgiResponderMethod.ret = .awaitable .noneT := by
  rcases h with h | h <;> subst h <;> decide

/-- Witness for C1 at the WSGI responder contract. -/
theorem responder_contract_four_groups_wit :
    ResponderMethod.posOnly.map Param.pname = ["resource", "req", "resp"] ∧
    (ResponderMethod.posOnly.map Param.ty).head? = Option.some Resource ∧
    ResponderMethod.posOrKw = [] ∧ ResponderMethod.kwOnly = [] ∧
    ResponderMethod.varKw = Option.some .any ∧
    (ResponderMethod.ret = .noneT ∨
      ResponderMethod.ret = .awaitable .noneT) ∧
    ResponderMethod.ret = .noneT ∧
    AsgiResponderMethod.ret = .awaitable .noneT :=
  responder_contract_four_groups ResponderMethod (Or.inl rfl)

/-- C2 counterexample: the synchronous ErrorHandler contract declares
its second (response) parameter with the bare response TypeVar, which
is not an Optional type and does not admit the None value, so the
response argument may not be absent in the synchronous form. -/
theorem sync_error_handler_resp_not_optional :
    secondParamTy ErrorHandler = Option.some (.tvar ("_RESP")) ∧
    isOptionalTy (.tvar ("_RESP")) = false ∧
    hasType falconEnv .vNone (.tvar ("_RESP")) = false := by decide

/-- C2 amended: only in the asynchronous form (AsgiErrorHandler) may
the response argument be absent: its second parameter has type
Optional of the ASGI response TypeVar and admits None, while the
synchronous ErrorHandler declares a bare, non-Optional response
parameter. -/
theorem error_handler_resp_optional_async_only :
    secondParamTy AsgiErrorHandler
      = Option.some (.optional (.tvar ("_A_RESP"))) ∧
    isOptionalTy (.optional (.tvar ("_A_RESP"))) = true ∧
    hasType falconEnv .vNone (.optional (.tvar ("_A_RESP"))) = true ∧
    secondParamTy ErrorHandler = Option.some (.tvar ("_RESP")) ∧
    isOptionalTy (.tvar ("_RESP")) = false := by decide

/-- C3: only the asynchronous error-handler contract receives a
WebSocket channel, as an optional, defaulted, keyword-only parameter
ws of type Optional of WebSocket, while the synchronous ErrorHandler
contract has no such parameter (no keyword-only group, no **kwargs,
and no parameter named ws). -/
theorem asgi_error_handler_ws_kw_only :
    AsgiErrorHandler.kwOnly
      = [⟨"ws", .optional (.named ("WebSocket")), true⟩] ∧
    AsgiErrorHandler.posOnly.map Param.pname
      = ["req", "resp", "error", "params"] ∧
    ErrorHandler.kwOnly = [] ∧ ErrorHandler.varKw = Option.none ∧
    ((ErrorHandler.posOnly ++ ErrorHandler.posOrKw).all
      (fun q => decide (q.pname ≠ "ws"))) = true := by decide

/-- C4: both sink contracts are invoked with a request and a response
and keyword captures annotated str (not Any), return nothing, and a
sink prefix is either a str or a compiled Pattern of str. -/
theorem sink_contract_shape (v : PyVal)
    (h : hasType falconEnv v SinkPrefix = true) :
    SinkCallable.posOnly.map Param.pname = ["req", "resp"] ∧
    SinkCallable.posOrKw = [] ∧ SinkCallable.kwOnly = [] ∧
    SinkCallable.varKw = Option.some .str ∧
    SinkCallable.varKw ≠ Option.some .any ∧
    SinkCallable.ret = .noneT ∧
    AsgiSinkCallable.posOnly.map Param.pname = ["req", "resp"] ∧
    AsgiSinkCallable.posOrKw = [] ∧ AsgiSinkCallable.kwOnly = [] ∧
    AsgiSinkCallable.varKw = Option.some .str ∧
    AsgiSinkCallable.ret = .awaitable .noneT ∧
    (hasType falconEnv v .str = true ∨
      hasType falconEnv v (.pattern .str) = true) := by
  refine ⟨by decide, by decide, by decide, by decide, by decide, by decide,
    by decide, by decide, by decide, by decide, by decide, ?_⟩
  exact (hasType_union falconEnv v .str (.pattern .str)).mp h

/-- Witness for C4 at a concrete string prefix. -/
theorem sink_contract_shape_wit :
    hasType falconEnv (.vStr ("/static")) SinkPrefix = true ∧
    (hasType falconEnv (.vStr ("/static")) .str = true ∨
      hasType falconEnv (.vStr ("/static")) (.pattern .str) = true) :=
  ⟨by decide,
   (sink_contract_shape (.vStr ("/static"))
      (by decide)).2.2.2.2.2.2.2.2.2.2.2⟩

/-- C5 counterexample: DeserializeSync takes exactly one parameter, of
type bytes, so no content type is available to the deserializer. -/
theorem deserialize_has_no_content_type :
    DeserializeSync.posOnly = [anon .bytes] ∧
    DeserializeSync.posOrKw = [] ∧ DeserializeSync.kwOnly = [] ∧
    DeserializeSync.varKw = Option.none ∧
    (DeserializeSync.posOnly ++ DeserializeSync.posOrKw).length = 1 := by
  decide

/-- C5 amended: SerializeSync maps an arbitrary value and an optional,
defaulted content type to bytes; DeserializeSync maps bytes alone back
to an arbitrary value and has no content-type parameter. -/
theorem serialize_bytes_deserialize_back :
    SerializeSync.posOrKw.map Param.ty = [.any, .optional .str] ∧
    SerializeSync.posOrKw.map Param.hasDefault = [false, true] ∧
    SerializeSync.ret = .bytes ∧
    DeserializeSync.posOnly.map Param.ty = [.bytes] ∧
    DeserializeSync.ret = .any ∧
    (DeserializeSync.posOnly ++ DeserializeSync.posOrKw
      ++ DeserializeSync.kwOnly).length = 1 := by decide

/-- C6: FindMethod takes a URI str and an Optional request and returns
FindResult, and every value of FindResult is exactly one of two cases:
the no-match value None, or a 4-tuple of the matched resource, a
method table of type MethodDict, a str-keyed dictionary of captured
parameters, and an optional remainder path str; the two cases are
distinct. -/
theorem find_method_two_cases (v : PyVal)
    (h : hasType falconEnv v FindResult = true) :
    FindMethod.ret = FindResult ∧
    (FindMethod.posOnly ++ FindMethod.posOrKw).map Param.ty
      = [.str, .optional (.tvar ("_REQ"))] ∧
    (v = .vNone ∨
      ∃ a b c d, v = .vTuple4 a b c d ∧
        hasType falconEnv b MethodDict = true ∧
        hasType falconEnv c (.dict .str .any) = true ∧
        hasType falconEnv d (.optional .str) = true) ∧
    (∀ a b c d, PyVal.vTuple4 a b c d ≠ PyVal.vNone) := by
  refine ⟨by decide, by decide, ?_, fun a b c d => by simp⟩
  rw [FindResult, hasType_optional] at h
  rcases h with h | h
  · exact Or.inl h
  · rcases (hasType_tuple4 falconEnv v _ _ _ _).mp h with
      ⟨a, b, c, d, rfl, _, hb, hc, hd⟩
    exact Or.inr ⟨a, b, c, d, rfl, hb, hc, hd⟩

/-- Witness for C6 at a concrete matched 4-tuple whose method table
maps GET to the ResponderCallable signature. -/
theorem find_method_two_cases_wit :
    ((PyVal.vTuple4 (.vObj ("X"))
        (.vDictCons (.vStr ("GET")) (.vFun ResponderCallable) .vDictNil)
        .vDictNil .vNone) = .vNone ∨
      ∃ a b c d, (PyVal.vTuple4 (.vObj ("X"))
        (.vDictCons (.vStr ("GET")) (.vFun ResponderCallable) .vDictNil)
        .vDictNil .vNone) = .vTuple4 a b c d ∧
        hasType falconEnv b MethodDict = true ∧
        hasType falconEnv c (.dict .str .any) = true ∧
        hasType falconEnv d (.optional .str) = true) :=
  (find_method_two_cases _ (by decide)).2.2.1

/-- C7 counterexample: the error-handler family breaks the claimed
correspondence: the asynchronous AsgiErrorHandler is not the
synchronous ErrorHandler with the result merely wrapped in Awaitable,
since it also makes the response parameter Optional and adds a
keyword-only ws parameter. -/
theorem error_handler_async_not_plain_wrap :
    shape (asgiCounterpart ErrorHandler) ≠ shape AsgiErrorHandler ∧
    AsgiErrorHandler.ret = .awaitable .noneT := by decide

/-- C7 amended: the responder, middleware process-method, and sink
families correspond parameter-for-parameter with the result wrapped in
Awaitable; but not every synchronous contract does: the error-handler
family differs beyond the Awaitable wrap, and ErrorSerializer,
SerializeSync, DeserializeSync and FindMethod have no asynchronous
counterpart among the declarations of the file. -/
theorem sync_async_families_correspond :
    asgiCounterpart ResponderMethod = AsgiResponderMethod ∧
    asgiCounterpart ResponderCallable = AsgiResponderCallable ∧
    asgiCounterpart ProcessRequestMethod = AsgiProcessRequestMethod ∧
    asgiCounterpart ProcessResourceMethod = AsgiProcessResourceMethod ∧
    asgiCounterpart ProcessResponseMethod = AsgiProcessResponseMethod ∧
    asgiCounterpart SinkCallable = AsgiSinkCallable ∧
    shape (asgiCounterpart ErrorHandler) ≠ shape AsgiErrorHandler ∧
    (declaredContracts.all (fun nc =>
      decide (shape nc.2 ≠ shape (asgiCounterpart ErrorSerializer))))
      = true ∧
    (declaredContracts.all (fun nc =>
      decide (shape nc.2 ≠ shape (asgiCounterpart SerializeSync)))) = true ∧
    (declaredContracts.all (fun nc =>
      decide (shape nc.2 ≠ shape (asgiCounterpart DeserializeSync))))
      = true ∧
    (declaredContracts.all (fun nc =>
      decide (shape nc.2 ≠ shape (asgiCounterpart FindMethod)))) = true := by
  decide

/-- C8: the _Unset enum has exactly one member, _UNSET denotes it, a
value of UnsetOr is the sentinel or a value of the parameter type, and
when the parameter type does not itself admit the sentinel the two
cases are disjoint, distinguishing the sentinel from every value of
the parameter type. -/
theorem unset_sentinel_sum (T : PyType) (v : PyVal)
    (hadm : unsetAdmissible T = false)
    (hv : hasType falconEnv v (UnsetOr T) = true) :
    (∀ x : _Unset, x = _Unset.UNSET) ∧
    _UNSET = _Unset.UNSET ∧
    (∀ w, hasType falconEnv w (UnsetOr T) = true ↔
      (w = .vUnset ∨ hasType falconEnv w T = true)) ∧
    ((v = .vUnset ∧ hasType falconEnv v T = false) ∨
      (v ≠ .vUnset ∧ hasType falconEnv v T = true)) := by
  have hcases : ∀ w, hasType falconEnv w (UnsetOr T) = true ↔
      (w = .vUnset ∨ hasType falconEnv w T = true) := by
    intro w
    rw [UnsetOr, hasType_union]
    rw [hasType_litUnset]
  refine ⟨fun x => by cases x; rfl, rfl, hcases, ?_⟩
  by_cases hu : v = .vUnset
  · subst hu
    left
    refine ⟨rfl, ?_⟩
    by_contra hne
    simp only [Bool.not_eq_false] at hne
    have := unsetAdmissible_of_hasType falconEnv T hne
    rw [this] at hadm
    exact Bool.noConfusion hadm
  · rcases (hcases v).mp hv with h | h
    · exact absurd h hu
    · exact Or.inr ⟨hu, h⟩

/-- Witness for C8 at the parameter type str and the sentinel value. -/
theorem unset_sentinel_sum_wit :
    (PyVal.vUnset = PyVal.vUnset ∧
      hasType falconEnv .vUnset .str = false) ∨
    (PyVal.vUnset ≠ PyVal.vUnset ∧
      hasType falconEnv .vUnset .str = true) :=
  (unset_sentinel_sum .str .vUnset (by decide) (by decide)).2.2.2

/-- C9: every value of the ResponseCallbacks type is either a nullary
callable returning None paired with the literal False or a nullary
callable returning an awaitable of None paired with the literal True,
and the two mixed pairings are not of the type. -/
theorem response_callbacks_tag_truthful (v : PyVal)
    (h : hasType falconEnv v ResponseCallbacks = true) :
    (v = .vPair (.vFun (nullarySig .noneT)) (.vBool false) ∨
      v = .vPair (.vFun (nullarySig (.awaitable .noneT))) (.vBool true)) ∧
    hasType falconEnv
      (.vPair (.vFun (nullarySig .noneT)) (.vBool true))
      ResponseCallbacks = false ∧
    hasType falconEnv
      (.vPair (.vFun (nullarySig (.awaitable .noneT))) (.vBool false))
      ResponseCallbacks = false := by
  refine ⟨?_, by decide, by decide⟩
  rw [ResponseCallbacks, hasType_union] at h
  rcases h with h | h
  · rcases (hasType_pair falconEnv v _ _).mp h with ⟨a, b, rfl, ha, hb⟩
    rw [hasType_fn0] at ha
    rw [hasType_litBool] at hb
    exact Or.inl (by rw [ha, hb])
  · rcases (hasType_pair falconEnv v _ _).mp h with ⟨a, b, rfl, ha, hb⟩
    rw [hasType_fn0] at ha
    rw [hasType_litBool] at hb
    exact Or.inr (by rw [ha, hb])

/-- Witness for C9 at the synchronous pairing. -/
theorem response_callbacks_tag_truthful_wit :
    ((PyVal.vPair (.vFun (nullarySig .noneT)) (.vBool false))
        = .vPair (.vFun (nullarySig .noneT)) (.vBool false) ∨
      (PyVal.vPair (.vFun (nullarySig .noneT)) (.vBool false))
        = .vPair (.vFun (nullarySig (.awaitable .noneT))) (.vBool true)) :=
  (response_callbacks_tag_truthful _ (by decide)).1

/-- C10 counterexample: FindMethod and SerializeSync declare their
leading parameters without a positional-only marker, so those
parameters are positional-or-keyword, falsifying the claim that all
listed protocol contracts use positional-only leading parameters. -/
theorem find_method_not_positional_only :
    FindMethod.posOnly = [] ∧
    FindMethod.posOrKw
      = [p ("uri") .str, p ("req") (.optional (.tvar ("_REQ")))] ∧
    SerializeSync.posOnly = [] ∧
    SerializeSync.posOrKw.map Param.pname = ["media", "content_type"] := by
  decide

/-- C10 amended: the responder, sink and asynchronous error-handler
protocols declare their leading parameters positional-only, but
FindMethod and SerializeSync do not: their parameters are
positional-or-keyword. -/
theorem leading_params_positional_only_mostly :
    ([ResponderMethod, ResponderCallable, AsgiResponderMethod,
      AsgiResponderCallable, AsgiResponderWsCallable, SinkCallable,
      AsgiSinkCallable, AsgiErrorHandler].all (fun s =>
        decide (s.posOrKw = []) && decide (s.posOnly ≠ []) &&
          decide (s.kwOnly.all (fun q => q.pname ≠ "")))) = true ∧
    FindMethod.posOnly = [] ∧ SerializeSync.posOnly = [] := by decide

end FalconTyping
